import Mathlib

/-!
Shallow embedding of the file_crawler tool (src/main.rs).

The embedding covers the diff engine (compare_analysis), the aggregator
(file_recorder), and the per-directory enumeration unit (read_path).
Filesystem interaction is abstracted: a directory listing is modelled as
the value the OS returns (an Except for the open, and per-child data for
existence, kind tests and metadata); the channel is modelled as the list
of messages the receiver delivers, in delivery order.  u64/u32/usize
values carry no arithmetic in the modelled code, so they are embedded as
Nat.
-/

/-- Rust enum EntryType: File | Directory | Unknown. -/
inductive EntryType where
  | File
  | Directory
  | Unknown
deriving DecidableEq, Repr

/-- Rust struct EntryInfo { entry_type, path, octets }.  Eq and Hash are
derived/implemented over the full (entry_type, path, octets) triple, which
structure equality here reproduces. -/
structure EntryInfo where
  entry_type : EntryType
  path : String
  octets : Nat
deriving DecidableEq, Repr

/-- Rust const TOOL_REVISION: u32 = 1. -/
def TOOL_REVISION : Nat := 1

/-- Rust struct Crawl { date_time, used_tool_revision, entry_count, entries_info }.
The HashSet of EntryInfo is embedded as a Finset. -/
structure Crawl where
  date_time : String
  used_tool_revision : Nat
  entry_count : Nat
  entries_info : Finset EntryInfo
deriving DecidableEq

/-- Rust impl PartialEq for Crawl: ignores date_time. -/
def crawl_eq (a b : Crawl) : Prop :=
  a.used_tool_revision = b.used_tool_revision ∧
  a.entry_count = b.entry_count ∧
  a.entries_info = b.entries_info

/-- Rust enum EntryDifferenceType. -/
inductive EntryDifferenceType where
  | New
  | Removed
  | SizeChange
  | NoChange
deriving DecidableEq, Repr

/-- Rust struct EntryDifference (borrowed fields flattened to values). -/
structure EntryDifference where
  entry_type : EntryType
  difference_type : EntryDifferenceType
  path : Option String
  octets_difference : Nat
deriving DecidableEq, Repr

/-- The EntryDifference pushed for each entry of the intersection in
compare_analysis: NoChange, path Some, octets_difference 0. -/
def noChangeDifference (e : EntryInfo) : EntryDifference :=
  { entry_type := e.entry_type
    difference_type := EntryDifferenceType.NoChange
    path := some e.path
    octets_difference := 0 }

/-- The EntryDifference pushed for each entry of the set difference in
compare_analysis: New, path Some, octets_difference = entry.octets. -/
def newDifference (e : EntryInfo) : EntryDifference :=
  { entry_type := e.entry_type
    difference_type := EntryDifferenceType.New
    path := some e.path
    octets_difference := e.octets }

/-- Core of Rust fn compare_analysis(first_file, second_file): after
deserialising the two Crawls, it computes
entries_not_changed = first.entries_info.intersection(second.entries_info)
and entries_changed = first.entries_info.difference(second.entries_info),
and pushes a NoChange difference per intersection entry followed by a New
difference per difference entry.  HashSet iteration order is arbitrary, so
the produced Vec is modelled as the Multiset of pushed differences.  File
I/O and JSON (de)serialisation are outside the model; the two entry sets
are the function's inputs. -/
def compare_analysis (first_analysis second_analysis : Finset EntryInfo) :
    Multiset EntryDifference :=
  Multiset.map noChangeDifference (first_analysis ∩ second_analysis).val +
    Multiset.map newDifference (first_analysis \ second_analysis).val

/-- Rust enum RecorderSignal: EntriesVec(Box<Vec<EntryInfo>>) | Close. -/
inductive RecorderSignal where
  | EntriesVec (entries : List EntryInfo)
  | Close
deriving DecidableEq, Repr

/-- The loop body for entry in entries { entries_info.insert(entry) } in
file_recorder. -/
def insert_all (s : Finset EntryInfo) (es : List EntryInfo) : Finset EntryInfo :=
  es.foldl (fun t e => insert e t) s

/-- The mutable state of file_recorder: jobs_done and entries_info. -/
structure RecorderState where
  jobs_done : Nat
  entries_info : Finset EntryInfo
deriving DecidableEq

/-- The while-let receive loop of Rust fn file_recorder.  The argument list
is the sequence of messages the receiver delivers (receiver.next() yielding
Some each time), ending when the channel is drained.  On EntriesVec the
entries are inserted, jobs_done is incremented, and the loop breaks when
jobs_done == jobs_working.  On Close the code calls receiver.close(), which
only stops further sends; already-delivered messages (the rest of the list)
are still consumed, so the state is unchanged and the loop continues. -/
def recorder_loop (jobs_working : Nat) :
    List RecorderSignal → RecorderState → RecorderState
  | [], st => st
  | RecorderSignal.EntriesVec entries :: rest, st =>
      let st2 : RecorderState :=
        ⟨st.jobs_done + 1, insert_all st.entries_info entries⟩
      if st2.jobs_done = jobs_working then st2
      else recorder_loop jobs_working rest st2
  | RecorderSignal.Close :: rest, st => recorder_loop jobs_working rest st

/-- Rust fn file_recorder(receiver, jobs_working): runs the receive loop
from jobs_done = 0 and an empty entry set, then finalises the Crawl with
the current date_time, TOOL_REVISION, entry_count = entries_info.len() and
the collected set.  Writing the JSON file is outside the model. -/
def file_recorder (msgs : List RecorderSignal) (jobs_working : Nat)
    (date_time : String) : Crawl :=
  let st := recorder_loop jobs_working msgs ⟨0, ∅⟩
  { date_time := date_time
    used_tool_revision := TOOL_REVISION
    entry_count := st.entries_info.card
    entries_info := st.entries_info }

/-- Number of messages the file_recorder loop consumes from the channel
(number of times receiver.next() yields Some before the loop exits),
mirroring recorder_loop step for step on the same delivered-message list,
starting from a given jobs_done. -/
def messages_consumed (jobs_working : Nat) :
    List RecorderSignal → Nat → Nat
  | [], _ => 0
  | RecorderSignal.EntriesVec _ :: rest, jobs_done =>
      if jobs_done + 1 = jobs_working then 1
      else 1 + messages_consumed jobs_working rest (jobs_done + 1)
  | RecorderSignal.Close :: rest, jobs_done =>
      1 + messages_consumed jobs_working rest jobs_done

/-- One child yielded by fs::read_dir, abstracted to the data the OS calls
return on it: entry.path().exists(), entry.path().is_file(),
entry.path().is_dir(), entry.path().to_str() (None when the path is not
valid unicode) and entry.metadata().map(len) (None on a metadata error). -/
structure DirChild where
  path_exists : Bool
  is_file : Bool
  is_dir : Bool
  path_to_str : Option String
  metadata_len : Option Nat
deriving DecidableEq, Repr

/-- The kind classification in read_path: is_file is tested first, then
is_dir, else Unknown. -/
def classify_entry_type (c : DirChild) : EntryType :=
  if c.is_file then EntryType.File
  else if c.is_dir then EntryType.Directory
  else EntryType.Unknown

/-- The per-child body of the for-loop in read_path (after the Ok(entry)
match): skip (continue) when the path no longer exists, otherwise build the
EntryInfo with path = to_str().unwrap_or("Invalid path") and
octets = metadata length, 0 on a metadata error. -/
def child_entry (c : DirChild) : Option EntryInfo :=
  if c.path_exists then
    some { entry_type := classify_entry_type c
           path := c.path_to_str.getD "Invalid path"
           octets := c.metadata_len.getD 0 }
  else none

/-- The full for-loop of read_path over the listing: an Err child is
skipped (continue), an Ok child contributes child_entry. -/
def read_dir_entries (children : List (Except Unit DirChild)) :
    List EntryInfo :=
  children.filterMap (fun child =>
    match child with
    | Except.error _ => none
    | Except.ok c => child_entry c)

/-- Rust async fn read_path(path, sender), as the list of messages it sends
on the channel.  Input is the result of fs::read_dir on the path: on Err it
prints the error and returns, sending nothing; on Ok it collects the
entries of the listing and sends one EntriesVec message. -/
def read_path (listing : Except Unit (List (Except Unit DirChild))) :
    List RecorderSignal :=
  match listing with
  | Except.error _ => []
  | Except.ok children =>
      [RecorderSignal.EntriesVec (read_dir_entries children)]

/-- Union of the entry sets of a list of batches, as the aggregator folds
them in. -/
def unionAll (bs : List (List EntryInfo)) : Finset EntryInfo :=
  bs.foldr (fun b s => b.toFinset ∪ s) ∅

/-- The batches carried by a message list, in order. -/
def batchesOf (msgs : List RecorderSignal) : List (List EntryInfo) :=
  msgs.filterMap (fun m =>
    match m with
    | RecorderSignal.EntriesVec es => some es
    | RecorderSignal.Close => none)

/-- The batches the successful directory listings of a scan contribute, in
path iteration order (the failed listings contribute nothing). -/
def ok_batches (ls : List (Except Unit (List (Except Unit DirChild)))) :
    List (List EntryInfo) :=
  ls.filterMap (fun l =>
    match l with
    | Except.error _ => none
    | Except.ok children => some (read_dir_entries children))

theorem insert_all_eq_union (s : Finset EntryInfo) (es : List EntryInfo) :
    insert_all s es = s ∪ es.toFinset := by
  induction es generalizing s with
  | nil => simp [insert_all]
  | cons e tl ih =>
      simp only [insert_all, List.foldl_cons] at *
      rw [ih (insert e s)]
      simp [Finset.insert_union, Finset.union_insert]

theorem unionAll_nil : unionAll [] = ∅ := rfl

theorem unionAll_cons (b : List EntryInfo) (bs : List (List EntryInfo)) :
    unionAll (b :: bs) = b.toFinset ∪ unionAll bs := rfl

theorem unionAll_append (bs cs : List (List EntryInfo)) :
    unionAll (bs ++ cs) = unionAll bs ∪ unionAll cs := by
  induction bs with
  | nil => simp [unionAll_nil, unionAll_cons]
  | cons b tl ih =>
      simp [unionAll_cons, ih, Finset.union_assoc]

theorem unionAll_perm {bs cs : List (List EntryInfo)} (h : bs.Perm cs) :
    unionAll bs = unionAll cs := by
  induction h with
  | nil => rfl
  | cons x _ ih => rw [unionAll_cons, unionAll_cons, ih]
  | swap x y l =>
      rw [unionAll_cons, unionAll_cons, unionAll_cons, unionAll_cons,
        Finset.union_left_comm]
  | trans _ _ ih1 ih2 => rw [ih1, ih2]

theorem unionAll_eq_toFinset_flatten (bs : List (List EntryInfo)) :
    unionAll bs = bs.flatten.toFinset := by
  induction bs with
  | nil => rfl
  | cons b tl ih =>
      rw [unionAll_cons, List.flatten_cons, List.toFinset_append, ih]

theorem batchesOf_nil : batchesOf [] = [] := rfl

theorem batchesOf_entries (es : List EntryInfo) (msgs : List RecorderSignal) :
    batchesOf (RecorderSignal.EntriesVec es :: msgs) = es :: batchesOf msgs := rfl

theorem batchesOf_close (msgs : List RecorderSignal) :
    batchesOf (RecorderSignal.Close :: msgs) = batchesOf msgs := rfl

theorem batchesOf_map_entries (bs : List (List EntryInfo)) :
    batchesOf (bs.map RecorderSignal.EntriesVec) = bs := by
  induction bs with
  | nil => rfl
  | cons b tl ih => rw [List.map_cons, batchesOf_entries, ih]

theorem batchesOf_append (msgs msgs2 : List RecorderSignal) :
    batchesOf (msgs ++ msgs2) = batchesOf msgs ++ batchesOf msgs2 :=
  List.filterMap_append msgs msgs2 _

theorem recorder_loop_spec (jobs_working : Nat) (msgs : List RecorderSignal) :
    ∀ st : RecorderState,
      st.jobs_done + (batchesOf msgs).length ≤ jobs_working →
      recorder_loop jobs_working msgs st =
        ⟨st.jobs_done + (batchesOf msgs).length,
          st.entries_info ∪ unionAll (batchesOf msgs)⟩ := by
  induction msgs with
  | nil =>
      intro st _
      simp [recorder_loop, batchesOf_nil, unionAll_nil]
  | cons m rest ih =>
      intro st h
      cases m with
      | EntriesVec es =>
          rw [batchesOf_entries] at h ⊢
          simp only [List.length_cons] at h
          simp only [recorder_loop]
          by_cases hb : st.jobs_done + 1 = jobs_working
          · have hrest : (batchesOf rest).length = 0 := by omega
            have hrest2 : batchesOf rest = [] := List.length_eq_zero.mp hrest
            simp only [hb, if_pos rfl]
            rw [hrest2]
            simp [unionAll_cons, unionAll_nil, insert_all_eq_union, hb]
          · simp only [if_neg hb]
            rw [ih ⟨st.jobs_done + 1, insert_all st.entries_info es⟩
              (by show st.jobs_done + 1 + (batchesOf rest).length ≤ jobs_working
                  omega)]
            simp [insert_all_eq_union, unionAll_cons, Finset.union_assoc]
            omega
      | Close =>
          rw [batchesOf_close] at h ⊢
          simp only [recorder_loop]
          exact ih st h

theorem map_read_path_flatten
    (ls : List (Except Unit (List (Except Unit DirChild)))) :
    (ls.map read_path).flatten = (ok_batches ls).map RecorderSignal.EntriesVec := by
  induction ls with
  | nil => rfl
  | cons l rest ih =>
      cases l with
      | error e =>
          simp [read_path, ok_batches, List.filterMap_cons, ih]
      | ok children =>
          simp only [List.map_cons, List.flatten_cons, read_path]
          rw [ih]
          simp [ok_batches, List.filterMap_cons]

theorem ok_batches_length_le
    (ls : List (Except Unit (List (Except Unit DirChild)))) :
    (ok_batches ls).length ≤ ls.length :=
  List.length_filterMap_le _ _

/-- C1: evaluating compare_analysis at the failing input.  With
before = {File "b" 5} and after = ∅ the set difference
after.entries − before.entries is empty, yet the code emits one changed
(New) difference, because it computes before.entries − after.entries;
conversely with before = ∅ and after = {File "b" 5} the claimed changed
set is nonempty, yet the code emits no difference at all. -/
theorem diff_changed_direction_code_behavior :
    compare_analysis {EntryInfo.mk EntryType.File "b" 5} (∅ : Finset EntryInfo) =
      {newDifference (EntryInfo.mk EntryType.File "b" 5)} ∧
    ((∅ : Finset EntryInfo) \ {EntryInfo.mk EntryType.File "b" 5}) = ∅ ∧
    compare_analysis (∅ : Finset EntryInfo) {EntryInfo.mk EntryType.File "b" 5} =
      0 := by
  decide

/-- C2: evaluating compare_analysis at the claimed inputs.  With
before = {File "a"} and after = {File "a", File "b"} the report is only
the NoChange difference for "a" — no New difference for "b" is emitted.
With before = {File "a", File "b"} and after = {File "a"} the report is
the NoChange difference for "a" and a New difference for "b" — not the
claimed Removed difference. -/
theorem diff_new_removed_code_behavior :
    compare_analysis {EntryInfo.mk EntryType.File "a" 0}
        {EntryInfo.mk EntryType.File "a" 0, EntryInfo.mk EntryType.File "b" 0} =
      {noChangeDifference (EntryInfo.mk EntryType.File "a" 0)} ∧
    compare_analysis
        {EntryInfo.mk EntryType.File "a" 0, EntryInfo.mk EntryType.File "b" 0}
        {EntryInfo.mk EntryType.File "a" 0} =
      {noChangeDifference (EntryInfo.mk EntryType.File "a" 0),
        newDifference (EntryInfo.mk EntryType.File "b" 0)} := by
  decide

/-- C3: evaluating compare_analysis at before = {File "x" 100},
after = {File "x" 200}: the report is exactly one difference, a New one
for path "x" carrying the old octet count 100 — no SizeChange difference
is ever produced by the code. -/
theorem diff_sizechange_code_behavior :
    compare_analysis {EntryInfo.mk EntryType.File "x" 100}
        {EntryInfo.mk EntryType.File "x" 200} =
      {EntryDifference.mk EntryType.File EntryDifferenceType.New (some "x") 100} := by
  decide

/-- C8: diff of a snapshot with itself classifies every emitted difference
NoChange; none is New, Removed or SizeChange. -/
theorem diff_self_all_nochange (A : Finset EntryInfo) (d : EntryDifference)
    (hd : d ∈ compare_analysis A A) :
    d.difference_type = EntryDifferenceType.NoChange := by
  simp only [compare_analysis, Finset.inter_self, Finset.sdiff_self,
    Finset.empty_val, Multiset.map_zero, add_zero,
    Multiset.mem_map] at hd
  obtain ⟨e, _, rfl⟩ := hd
  rfl

/-- Witness for C8 at the one-entry snapshot {File "a" 1}. -/
theorem diff_self_all_nochange_witness :
    noChangeDifference (EntryInfo.mk EntryType.File "a" 1) ∈
      compare_analysis {EntryInfo.mk EntryType.File "a" 1}
        {EntryInfo.mk EntryType.File "a" 1} ∧
    (noChangeDifference (EntryInfo.mk EntryType.File "a" 1)).difference_type =
      EntryDifferenceType.NoChange :=
  ⟨by decide,
    diff_self_all_nochange {EntryInfo.mk EntryType.File "a" 1}
      (noChangeDifference (EntryInfo.mk EntryType.File "a" 1)) (by decide)⟩

/-- C5: with one batch per each of the N dispatched jobs followed by the
Close signal main sends, the recorder finalises one snapshot whose entry
set is the union of all batches and whose entry_count is the number of
distinct (kind, path, octets) triples observed across all batches; in
particular two batches carrying the same triple contribute one entry.
Covers N = 0 (the empty batch list). -/
theorem aggregator_finalizes_dedup (bs : List (List EntryInfo)) (dt : String) :
    (file_recorder (bs.map RecorderSignal.EntriesVec ++ [RecorderSignal.Close])
        bs.length dt).entries_info = unionAll bs ∧
    (file_recorder (bs.map RecorderSignal.EntriesVec ++ [RecorderSignal.Close])
        bs.length dt).entry_count = bs.flatten.toFinset.card := by
  have hb : batchesOf (bs.map RecorderSignal.EntriesVec ++ [RecorderSignal.Close]) =
      bs := by
    rw [batchesOf_append, batchesOf_map_entries, batchesOf_close, batchesOf_nil,
      List.append_nil]
  have h1 := recorder_loop_spec bs.length
    (bs.map RecorderSignal.EntriesVec ++ [RecorderSignal.Close]) ⟨0, ∅⟩
  rw [hb] at h1
  have h2 := h1 (by simp)
  refine ⟨?_, ?_⟩ <;>
    simp [file_recorder, h2, Finset.empty_union, unionAll_eq_toFinset_flatten]

/-- C6 counterexample: with expected job count 0 the recorder loop does
not finalise without consuming a message; on the actual N = 0 run the
channel delivers the Close signal main sends after dispatch, and the loop
consumes it — one message, not zero. -/
theorem aggregator_zero_jobs_consumes_close :
    messages_consumed 0 [RecorderSignal.Close] 0 ≠ 0 := by decide

/-- C6 amended: with N = 0 the recorder finalises the empty snapshot only
after consuming the single Close signal sent by main once dispatch ends. -/
theorem aggregator_zero_jobs_after_close (dt : String) :
    (file_recorder [RecorderSignal.Close] 0 dt).entries_info = ∅ ∧
    (file_recorder [RecorderSignal.Close] 0 dt).entry_count = 0 ∧
    messages_consumed 0 [RecorderSignal.Close] 0 = 1 :=
  ⟨rfl, rfl, rfl⟩

/-- C10: when the delivered messages are some batches, then the Close
signal, then further already-delivered batches, with fewer batches in
total than the expected job count N, the loop drains everything and stops
at the end of the delivered messages; Close does not increment jobs_done,
and the finalised snapshot holds exactly the entries of the batches
received. -/
theorem aggregator_close_drains (bs cs : List (List EntryInfo)) (N : Nat)
    (dt : String) (h : bs.length + cs.length < N) :
    recorder_loop N
        (bs.map RecorderSignal.EntriesVec ++ RecorderSignal.Close ::
          cs.map RecorderSignal.EntriesVec) ⟨0, ∅⟩ =
      ⟨bs.length + cs.length, unionAll bs ∪ unionAll cs⟩ ∧
    (file_recorder
        (bs.map RecorderSignal.EntriesVec ++ RecorderSignal.Close ::
          cs.map RecorderSignal.EntriesVec) N dt).entries_info =
      unionAll bs ∪ unionAll cs := by
  have hb : batchesOf
      (bs.map RecorderSignal.EntriesVec ++ RecorderSignal.Close ::
        cs.map RecorderSignal.EntriesVec) = bs ++ cs := by
    rw [batchesOf_append, batchesOf_map_entries, batchesOf_close,
      batchesOf_map_entries]
  have h1 := recorder_loop_spec N
    (bs.map RecorderSignal.EntriesVec ++ RecorderSignal.Close ::
      cs.map RecorderSignal.EntriesVec) ⟨0, ∅⟩
  rw [hb] at h1
  have h2 := h1 (by show 0 + (bs ++ cs).length ≤ N
                    simp only [List.length_append]
                    omega)
  refine ⟨?_, ?_⟩
  · rw [h2]
    simp [unionAll_append, List.length_append]
  · simp [file_recorder, h2, unionAll_append, Finset.empty_union]

/-- Witness for C10 at bs = [[File "p" 1]], cs = [[File "q" 2]], N = 3. -/
theorem aggregator_close_drains_witness :
    ([[EntryInfo.mk EntryType.File "p" 1]].length +
        [[EntryInfo.mk EntryType.File "q" 2]].length < 3) ∧
    (recorder_loop 3
        ([[EntryInfo.mk EntryType.File "p" 1]].map RecorderSignal.EntriesVec ++
          RecorderSignal.Close ::
            [[EntryInfo.mk EntryType.File "q" 2]].map RecorderSignal.EntriesVec)
        ⟨0, ∅⟩ =
      ⟨[[EntryInfo.mk EntryType.File "p" 1]].length +
          [[EntryInfo.mk EntryType.File "q" 2]].length,
        unionAll [[EntryInfo.mk EntryType.File "p" 1]] ∪
          unionAll [[EntryInfo.mk EntryType.File "q" 2]]⟩ ∧
      (file_recorder
          ([[EntryInfo.mk EntryType.File "p" 1]].map RecorderSignal.EntriesVec ++
            RecorderSignal.Close ::
              [[EntryInfo.mk EntryType.File "q" 2]].map RecorderSignal.EntriesVec)
          3 "t").entries_info =
        unionAll [[EntryInfo.mk EntryType.File "p" 1]] ∪
          unionAll [[EntryInfo.mk EntryType.File "q" 2]]) :=
  ⟨by decide,
    aggregator_close_drains [[EntryInfo.mk EntryType.File "p" 1]]
      [[EntryInfo.mk EntryType.File "q" 2]] 3 "t" (by decide)⟩

/-- C4 counterexample: on a directory-open failure (fs::read_dir returns
Err) read_path prints the error and returns before the send, so it sends
no message at all — not the one (empty) batch the claim requires on every
exit path. -/
theorem read_path_error_sends_nothing :
    (read_path (Except.error ())).length ≠ 1 := by decide

/-- C4 amended: a directory whose listing fails contributes no batch
message, yet the other directories' batches are still aggregated: main
sends the Close signal once every unit has finished, and the recorder
finalises the snapshot with exactly the entries of the batches of the
successful listings. -/
theorem failed_dir_does_not_block_aggregation
    (ls : List (Except Unit (List (Except Unit DirChild)))) (dt : String) :
    (file_recorder ((ls.map read_path).flatten ++ [RecorderSignal.Close])
        ls.length dt).entries_info = unionAll (ok_batches ls) := by
  have hb : batchesOf ((ls.map read_path).flatten ++ [RecorderSignal.Close]) =
      ok_batches ls := by
    rw [map_read_path_flatten, batchesOf_append, batchesOf_map_entries,
      batchesOf_close, batchesOf_nil, List.append_nil]
  have h1 := recorder_loop_spec ls.length
    ((ls.map read_path).flatten ++ [RecorderSignal.Close]) ⟨0, ∅⟩
  rw [hb] at h1
  have h2 := h1 (by show 0 + (ok_batches ls).length ≤ ls.length
                    have := ok_batches_length_le ls
                    omega)
  simp [file_recorder, h2, Finset.empty_union]

/-- C7: sequential (slow) mode delivers one batch per successful listing
in path iteration order, then the Close signal; parallel (fast) mode
delivers the same batches in an arbitrary arrival order.  For every
arrival order (every permutation of the successful listings' batches) the
finalised snapshots agree on tool revision, entry count and entry set
(crawl_eq, which ignores only the timestamp). -/
theorem mode_equivalence
    (ls : List (Except Unit (List (Except Unit DirChild))))
    (bs : List (List EntryInfo)) (dt dt2 : String)
    (h : bs.Perm (ok_batches ls)) :
    crawl_eq
      (file_recorder (bs.map RecorderSignal.EntriesVec ++ [RecorderSignal.Close])
        ls.length dt)
      (file_recorder ((ls.map read_path).flatten ++ [RecorderSignal.Close])
        ls.length dt2) := by
  have hlen : bs.length = (ok_batches ls).length := h.length_eq
  have hle : (ok_batches ls).length ≤ ls.length := ok_batches_length_le ls
  have hb1 : batchesOf (bs.map RecorderSignal.EntriesVec ++ [RecorderSignal.Close]) =
      bs := by
    rw [batchesOf_append, batchesOf_map_entries, batchesOf_close, batchesOf_nil,
      List.append_nil]
  have hb2 : batchesOf ((ls.map read_path).flatten ++ [RecorderSignal.Close]) =
      ok_batches ls := by
    rw [map_read_path_flatten, batchesOf_append, batchesOf_map_entries,
      batchesOf_close, batchesOf_nil, List.append_nil]
  have h1 := recorder_loop_spec ls.length
    (bs.map RecorderSignal.EntriesVec ++ [RecorderSignal.Close]) ⟨0, ∅⟩
  rw [hb1] at h1
  have h2 := h1 (by show 0 + bs.length ≤ ls.length
                    omega)
  have h3 := recorder_loop_spec ls.length
    ((ls.map read_path).flatten ++ [RecorderSignal.Close]) ⟨0, ∅⟩
  rw [hb2] at h3
  have h4 := h3 (by show 0 + (ok_batches ls).length ≤ ls.length
                    omega)
  have hu : unionAll bs = unionAll (ok_batches ls) := unionAll_perm h
  refine ⟨rfl, ?_, ?_⟩ <;>
    simp [file_recorder, h2, h4, Finset.empty_union, hu]

/-- Witness for C7: two one-entry directories, the second listing failing
to open, with the fast-mode arrival order swapping the two batches. -/
theorem mode_equivalence_witness :
    [[EntryInfo.mk EntryType.Directory "/b" 0], [EntryInfo.mk EntryType.File "/a" 1]].Perm
      (ok_batches
        [Except.ok [Except.ok (DirChild.mk true true false (some "/a") (some 1))],
          Except.error (),
          Except.ok [Except.ok (DirChild.mk true false true (some "/b") none)]]) ∧
    crawl_eq
      (file_recorder
        ([[EntryInfo.mk EntryType.Directory "/b" 0],
            [EntryInfo.mk EntryType.File "/a" 1]].map RecorderSignal.EntriesVec ++
          [RecorderSignal.Close])
        ([Except.ok [Except.ok (DirChild.mk true true false (some "/a") (some 1))],
            Except.error (),
            Except.ok [Except.ok (DirChild.mk true false true (some "/b") none)]] :
          List (Except Unit (List (Except Unit DirChild)))).length "s")
      (file_recorder
        ((([Except.ok [Except.ok (DirChild.mk true true false (some "/a") (some 1))],
              Except.error (),
              Except.ok [Except.ok (DirChild.mk true false true (some "/b") none)]] :
            List (Except Unit (List (Except Unit DirChild)))).map read_path).flatten ++
          [RecorderSignal.Close])
        ([Except.ok [Except.ok (DirChild.mk true true false (some "/a") (some 1))],
            Except.error (),
            Except.ok [Except.ok (DirChild.mk true false true (some "/b") none)]] :
          List (Except Unit (List (Except Unit DirChild)))).length "p") :=
  ⟨by decide,
    mode_equivalence
      [Except.ok [Except.ok (DirChild.mk true true false (some "/a") (some 1))],
        Except.error (),
        Except.ok [Except.ok (DirChild.mk true false true (some "/b") none)]]
      [[EntryInfo.mk EntryType.Directory "/b" 0], [EntryInfo.mk EntryType.File "/a" 1]]
      "s" "p" (by decide)⟩

/-- C9: for a child of a directory listing, kind is determined by testing
is_file first, then is_dir, anything else yielding Unknown; and for an
existing child whose metadata read fails, the entry is produced with
octets 0 while the siblings before and after it in the listing are still
enumerated. -/
theorem classifier_order_and_metadata (c : DirChild)
    (pre post : List (Except Unit DirChild)) :
    (c.is_file = true → classify_entry_type c = EntryType.File) ∧
    (c.is_file = false → c.is_dir = true →
      classify_entry_type c = EntryType.Directory) ∧
    (c.is_file = false → c.is_dir = false →
      classify_entry_type c = EntryType.Unknown) ∧
    (c.path_exists = true → c.metadata_len = none →
      child_entry c = some (EntryInfo.mk (classify_entry_type c)
        (c.path_to_str.getD "Invalid path") 0)) ∧
    read_dir_entries (pre ++ Except.ok c :: post) =
      read_dir_entries pre ++
        ((child_entry c).toList ++ read_dir_entries post) := by
  refine ⟨?_, ?_, ?_, ?_, ?_⟩
  · intro hf
    simp [classify_entry_type, hf]
  · intro hf hd2
    simp [classify_entry_type, hf, hd2]
  · intro hf hd2
    simp [classify_entry_type, hf, hd2]
  · intro hp hm
    simp [child_entry, hp, hm]
  · simp only [read_dir_entries, List.filterMap_append, List.filterMap_cons]
    cases hc : child_entry c <;> simp [hc]

/-- Witness for C9: concrete children for each classification branch, a
metadata-failure child, and a three-child listing with the failing child
in the middle. -/
theorem classifier_order_and_metadata_witness :
    classify_entry_type (DirChild.mk true true false (some "/w") (some 7)) =
      EntryType.File ∧
    classify_entry_type (DirChild.mk true false true (some "/w") (some 7)) =
      EntryType.Directory ∧
    classify_entry_type (DirChild.mk true false false (some "/w") (some 7)) =
      EntryType.Unknown ∧
    child_entry (DirChild.mk true false false (some "/w") none) =
      some (EntryInfo.mk
        (classify_entry_type (DirChild.mk true false false (some "/w") none))
        ((some "/w").getD "Invalid path") 0) ∧
    read_dir_entries
        ([Except.ok (DirChild.mk true true false (some "/u") (some 1))] ++
          Except.ok (DirChild.mk true false false (some "/w") none) ::
            [Except.ok (DirChild.mk true true false (some "/v") (some 2))]) =
      read_dir_entries
          [Except.ok (DirChild.mk true true false (some "/u") (some 1))] ++
        ((child_entry (DirChild.mk true false false (some "/w") none)).toList ++
          read_dir_entries
            [Except.ok (DirChild.mk true true false (some "/v") (some 2))]) :=
  ⟨(classifier_order_and_metadata
      (DirChild.mk true true false (some "/w") (some 7)) [] []).1 rfl,
   (classifier_order_and_metadata
      (DirChild.mk true false true (some "/w") (some 7)) [] []).2.1 rfl rfl,
   (classifier_order_and_metadata
      (DirChild.mk true false false (some "/w") (some 7)) [] []).2.2.1 rfl rfl,
   (classifier_order_and_metadata
      (DirChild.mk true false false (some "/w") none) [] []).2.2.2.1 rfl rfl,
   (classifier_order_and_metadata
      (DirChild.mk true false false (some "/w") none)
      [Except.ok (DirChild.mk true true false (some "/u") (some 1))]
      [Except.ok (DirChild.mk true true false (some "/v") (some 2))]).2.2.2.2⟩
